import Mathlib

/-
Verification of the constant-rate frame repeater (RepeaterSource) and the
audio-policy ProductStrategy accessors from frameworks_av.

The ProductStrategy definitions are translated directly from the inline
member functions of
src/services/audiopolicy/engine/common/include/ProductStrategy.h.

The repeater engine logic lives in RepeaterSource.cpp, which is not part of
the supplied sources; only the class declaration
src/media/libstagefright/wifi-display/source/RepeaterSource.h is present.
The engine is therefore modelled from the specification (spec.md sections
3, 4.1, 5 and 7), with each modelled definition marked as such.
-/

namespace AudioPolicy

/-- Device type identifiers; audio_devices_t is a C enumeration over
unsigned integers. -/
abbrev AudioDeviceType := Nat

/-- DeviceTypeSet is std::set of audio_devices_t (AudioContainers.h):
a finite set of device type identifiers. -/
abbrev DeviceTypeSet := Finset AudioDeviceType

/-- VolumeGroupAttributes is an external record type; its internals are
irrelevant to the claims, so it is kept opaque behind a single tag. -/
structure VolumeGroupAttributes where
  tag : Nat
deriving DecidableEq, Repr

/-- The private state of ProductStrategy, field for field from
ProductStrategy.h lines 97 to 109: name, attributes vector, identifier
(product_strategy_t, an int), device address and applicable device set. -/
structure ProductStrategy where
  mName : String
  mAttributesVector : List VolumeGroupAttributes
  mId : Int
  mDeviceAddress : String
  mApplicableDevices : DeviceTypeSet
deriving DecidableEq

namespace ProductStrategy

/-- Translation of getName: returns mName. -/
def getName (s : ProductStrategy) : String := s.mName

/-- Translation of getId: returns mId. -/
def getId (s : ProductStrategy) : Int := s.mId

/-- Translation of getVolumeGroupAttributes: returns mAttributesVector. -/
def getVolumeGroupAttributes (s : ProductStrategy) : List VolumeGroupAttributes :=
  s.mAttributesVector

/-- Translation of setDeviceAddress: assigns mDeviceAddress := address. -/
def setDeviceAddress (s : ProductStrategy) (address : String) : ProductStrategy :=
  { s with mDeviceAddress := address }

/-- Translation of getDeviceAddress: returns mDeviceAddress. -/
def getDeviceAddress (s : ProductStrategy) : String := s.mDeviceAddress

/-- Translation of setDeviceTypes: assigns mApplicableDevices := devices. -/
def setDeviceTypes (s : ProductStrategy) (devices : DeviceTypeSet) : ProductStrategy :=
  { s with mApplicableDevices := devices }

/-- Translation of getDeviceTypes: returns mApplicableDevices. -/
def getDeviceTypes (s : ProductStrategy) : DeviceTypeSet := s.mApplicableDevices

end ProductStrategy

end AudioPolicy

namespace Repeater

/-- Status codes of the engine error model (spec section 7, plus OK). -/
inductive Status where
  | ok
  | upstreamUnavailable
  | upstreamTerminal
  | invalidState
  | stopped
deriving DecidableEq, Repr

/-- Lifecycle states (spec section 3): Stopped, Starting, Running,
Stopping. Starting and Stopping are transient and only observable from
another thread; in this sequential model start and stop traverse them
atomically, with stopBegin exposing the Stopping phase. -/
inductive Lifecycle where
  | Stopped
  | Starting
  | Running
  | Stopping
deriving DecidableEq, Repr

/-- An opaque media buffer handle: an identity plus opaque content. -/
structure Buffer where
  id : Nat
  content : List Nat
deriving DecidableEq, Repr

/-- The held buffer slot: the buffer, its reference count and the stamped
presentation timestamp in microseconds (spec section 3, Held Buffer). -/
structure Held where
  buf : Buffer
  refCount : Nat
  timestampUs : ℚ
deriving DecidableEq, Repr

/-- Modelled from the spec: the engine state of RepeaterSource.cpp (absent
from the sources), mirroring the fields declared in RepeaterSource.h:
mBuffer and mResult (held buffer and pending result), mStartTimeUs and
mFrameCount (pacing state), mRateHz, the lifecycle state, and whether a
further production cycle is armed on the scheduler. -/
structure Engine where
  lifecycle : Lifecycle
  rateHz : ℚ
  held : Option Held
  result : Status
  startTimeUs : Option ℚ
  frameCount : Nat
  scheduling : Bool
deriving DecidableEq, Repr

/-- A freshly constructed engine for a given rate: Stopped, nothing held,
no pacing state, no cycle armed. -/
def Engine.init (rateHz : ℚ) : Engine :=
  { lifecycle := .Stopped
    rateHz := rateHz
    held := none
    result := .ok
    startTimeUs := none
    frameCount := 0
    scheduling := false }

/-- The drift-free deadline formula of spec section 3: the deadline of
cycle n is startUs + n times (1 / rate). -/
def deadline (startUs : ℚ) (n : Nat) (rate : ℚ) : ℚ :=
  startUs + n * (1 / rate)

/-- Outcome of one non-blocking pull from the upstream producer
(spec section 6): a new buffer, would-block, or a terminal error. -/
inductive UpRead where
  | newBuffer (b : Buffer) (srcTimestampUs : ℚ)
  | wouldBlock
  | terminal
deriving DecidableEq, Repr

/-- A production cycle fires only while the engine is Running and a cycle
is armed (spec section 4.1, step machine). -/
def fires (e : Engine) : Prop :=
  e.lifecycle = .Running ∧ e.scheduling = true

instance (e : Engine) : Decidable (fires e) := by
  unfold fires; infer_instance

/-- Modelled from the spec: start (spec section 4.1). From Stopped, if the
producer start succeeds, initialize pacing state (frame counter 0), arm
the first cycle and go Running; if it fails, return upstreamUnavailable
and remain Stopped unchanged. While Running, a no-op success; while
Stopping, invalidState. producerStartOk abstracts the upstream producer
start call. -/
def start (e : Engine) (producerStartOk : Bool) : Engine × Status :=
  match e.lifecycle with
  | .Running => (e, .ok)
  | .Stopping => (e, .invalidState)
  | .Starting => (e, .invalidState)
  | .Stopped =>
      if producerStartOk then
        ({ e with
            lifecycle := .Running
            held := none
            result := .ok
            startTimeUs := none
            frameCount := 0
            scheduling := true }, .ok)
      else
        (e, .upstreamUnavailable)

/-- Modelled from the spec: one production cycle on the scheduler thread
(spec section 4.1, steps 1 to 6). nowUs is the wall-clock instant the
cycle fires, used only to fix the start timestamp at the first successful
production. A new buffer replaces the held one, stamped with the cycle
deadline; would-block keeps the held buffer untouched (the spec leaves
the re-stamp policy open, so the original timestamp is kept) and is not
surfaced; a terminal error records upstreamTerminal in the pending result
and disarms further cycles. The frame counter increments by exactly one
in every fired cycle. -/
def productionCycle (e : Engine) (nowUs : ℚ) (up : UpRead) : Engine :=
  if fires e then
    match up with
    | .newBuffer b _ =>
        let st := e.startTimeUs.getD nowUs
        { e with
            held := some ⟨b, 1, deadline st e.frameCount e.rateHz⟩
            startTimeUs := some st
            frameCount := e.frameCount + 1 }
    | .wouldBlock =>
        { e with frameCount := e.frameCount + 1 }
    | .terminal =>
        { e with
            result := .upstreamTerminal
            scheduling := false
            frameCount := e.frameCount + 1 }
  else e

/-- Modelled from the spec: read (spec sections 4.1 and 7). Before start
(Stopped) it fails with invalidState and has no side effects; while
Stopping it returns the Stopped status; while Running it surfaces a
pending terminal result, otherwise hands out one additional reference to
the held buffer together with its stamped timestamp, and blocks (returns
none) when no buffer is held yet. -/
def read (e : Engine) : Option (Engine × Except Status (Buffer × ℚ)) :=
  match e.lifecycle with
  | .Stopped => some (e, .error .invalidState)
  | .Starting => some (e, .error .invalidState)
  | .Stopping => some (e, .error .stopped)
  | .Running =>
      if e.result = .ok then
        match e.held with
        | some h =>
            some ({ e with held := some { h with refCount := h.refCount + 1 } },
                  .ok (h.buf, h.timestampUs))
        | none => none
      else
        some (e, .error e.result)

/-- Modelled from the spec: the first phase of stop (spec section 5,
cancellation): flip the lifecycle to Stopping, cancel the pending
scheduled production and broadcast the condition variable before
releasing resources, so a blocked reader observes Stopping. -/
def stopBegin (e : Engine) : Engine :=
  { e with lifecycle := .Stopping, scheduling := false }

/-- Modelled from the spec: the second phase of stop: release the held
buffer reference, reset the pacing state and return to Stopped. -/
def stopFinish (e : Engine) : Engine :=
  { e with
      lifecycle := .Stopped
      held := none
      result := .ok
      startTimeUs := none
      frameCount := 0 }

/-- Modelled from the spec: stop, which always succeeds: the Stopping
phase followed by cleanup back to Stopped. -/
def stop (e : Engine) : Engine × Status :=
  (stopFinish (stopBegin e), .ok)

/-- A trace of production cycles: each event carries the firing instant
and the upstream pull outcome. -/
abbrev Event := ℚ × UpRead

/-- Run a list of production-cycle events in order. -/
def runCycles (e : Engine) : List Event → Engine
  | [] => e
  | (now, up) :: rest => runCycles (productionCycle e now up) rest

/-- The deadlines assigned to the cycles that actually fire along a
trace, in order. -/
def cycleDeadlines (e : Engine) : List Event → List ℚ
  | [] => []
  | (now, up) :: rest =>
      if fires e then
        deadline ((e.startTimeUs.getD now)) e.frameCount e.rateHz ::
          cycleDeadlines (productionCycle e now up) rest
      else
        cycleDeadlines e rest

end Repeater

namespace Repeater

/-- A production cycle never changes the configured rate. -/
theorem productionCycle_rateHz (e : Engine) (now : ℚ) (up : UpRead) :
    (productionCycle e now up).rateHz = e.rateHz := by
  unfold productionCycle
  split
  · cases up <;> rfl
  · rfl

/-- Once the start timestamp is fixed, no production cycle changes it. -/
theorem productionCycle_startTimeUs_of_some (e : Engine) (now : ℚ) (up : UpRead)
    (s : ℚ) (hst : e.startTimeUs = some s) :
    (productionCycle e now up).startTimeUs = some s := by
  unfold productionCycle
  split
  · cases up <;> simp [hst]
  · exact hst

/-- A fired production cycle increments the frame counter by exactly one,
in every branch of the upstream pull. -/
theorem productionCycle_frameCount_of_fires (e : Engine) (now : ℚ) (up : UpRead)
    (hf : fires e) :
    (productionCycle e now up).frameCount = e.frameCount + 1 := by
  unfold productionCycle
  rw [if_pos hf]
  cases up <;> rfl

/-- A cycle that does not fire leaves the engine untouched. -/
theorem productionCycle_not_fires (e : Engine) (now : ℚ) (up : UpRead)
    (hf : ¬ fires e) : productionCycle e now up = e := by
  unfold productionCycle
  rw [if_neg hf]

/-- Auxiliary drift-freedom lemma, by induction over the event trace: once
the start timestamp is fixed at s, it stays fixed, the rate stays fixed,
and the deadline of the i-th subsequently fired cycle is
s + (frameCount + i) / rate, for every i and every trace of firing
instants. -/
theorem drift_free_aux (e : Engine) (s : ℚ) (evs : List Event)
    (hst : e.startTimeUs = some s) :
    (runCycles e evs).startTimeUs = some s ∧
    (runCycles e evs).rateHz = e.rateHz ∧
    ∀ i, i < (cycleDeadlines e evs).length →
      (cycleDeadlines e evs).getD i 0 =
        s + (e.frameCount + i : ℕ) * (1 / e.rateHz) := by
  induction evs generalizing e with
  | nil =>
      refine ⟨hst, rfl, ?_⟩
      intro i hi
      simp [cycleDeadlines] at hi
  | cons ev rest ih =>
      obtain ⟨now, up⟩ := ev
      by_cases hf : fires e
      · have hpres := productionCycle_startTimeUs_of_some e now up s hst
        have hrate := productionCycle_rateHz e now up
        have hfc := productionCycle_frameCount_of_fires e now up hf
        obtain ⟨h1, h2, h3⟩ := ih (productionCycle e now up) hpres
        refine ⟨?_, ?_, ?_⟩
        · simpa [runCycles] using h1
        · simp only [runCycles]
          rw [h2, hrate]
        · intro i hi
          simp only [cycleDeadlines, if_pos hf] at hi ⊢
          cases i with
          | zero =>
              simp [deadline, hst]
          | succ j =>
              simp only [List.length_cons, Nat.succ_lt_succ_iff] at hi
              have hget := h3 j hi
              rw [hrate, hfc] at hget
              simp only [List.getD_cons_succ]
              rw [hget]
              push_cast
              ring
      · have heq := productionCycle_not_fires e now up hf
        obtain ⟨h1, h2, h3⟩ := ih e hst
        refine ⟨?_, ?_, ?_⟩
        · simpa [runCycles, heq] using h1
        · simpa [runCycles, heq] using h2
        · intro i hi
          simp only [cycleDeadlines, if_neg hf] at hi ⊢
          exact h3 i hi

/-- C1: drift-free scheduling. Once the start timestamp is fixed at s
while the engine runs, the deadline of the i-th subsequently fired
production cycle equals s + (frameCount + i) times (1 / rate): a function
of the fixed start timestamp and the frame counter only. The trace evs of
actual firing instants is universally quantified and absent from the
right-hand side, so the deadline of a cycle never depends on when the
previous cycle actually fired. -/
theorem drift_free_deadline (e : Engine) (s : ℚ) (evs : List Event) (i : ℕ)
    (hst : e.startTimeUs = some s) (hi : i < (cycleDeadlines e evs).length) :
    (runCycles e evs).startTimeUs = some s ∧
    (runCycles e evs).rateHz = e.rateHz ∧
    (cycleDeadlines e evs).getD i 0 =
      s + (e.frameCount + i : ℕ) * (1 / e.rateHz) := by
  obtain ⟨h1, h2, h3⟩ := drift_free_aux e s evs hst
  exact ⟨h1, h2, h3 i hi⟩

/-- Witness for C1 at a concrete input: a rate-2 engine started and given
one fresh buffer at time 10, then two repeat cycles fired at arbitrary
irregular instants; the deadline of the second fired cycle after the
production is 10 + 2 times (1 / 2) = 11. -/
theorem drift_free_deadline_witness :
    (productionCycle ((start (Engine.init 2) true).fst) 10
        (.newBuffer ⟨0, []⟩ 99)).startTimeUs = some 10 ∧
    1 < (cycleDeadlines
          (productionCycle ((start (Engine.init 2) true).fst) 10
            (.newBuffer ⟨0, []⟩ 99))
          [(123, .wouldBlock), (456, .wouldBlock)]).length ∧
    (cycleDeadlines
        (productionCycle ((start (Engine.init 2) true).fst) 10
          (.newBuffer ⟨0, []⟩ 99))
        [(123, .wouldBlock), (456, .wouldBlock)]).getD 1 0 = 11 := by
  refine ⟨rfl, by decide, ?_⟩
  have h := drift_free_deadline
    (productionCycle ((start (Engine.init 2) true).fst) 10 (.newBuffer ⟨0, []⟩ 99))
    10 [(123, .wouldBlock), (456, .wouldBlock)] 1 rfl (by decide)
  calc (cycleDeadlines
        (productionCycle ((start (Engine.init 2) true).fst) 10
          (.newBuffer ⟨0, []⟩ 99))
        [(123, .wouldBlock), (456, .wouldBlock)]).getD 1 0
      = 10 + ((1 : ℕ) + 1 : ℕ) * (1 / 2 : ℚ) := h.2.2
    _ = 11 := by norm_num

/-- C2: repeat on starvation. When a fired production cycle meets a
would-block pull from upstream, the held buffer slot is returned exactly
as it was (same buffer content, same reference count, hence still at
least one reference), the pending result stays OK (the would-block
condition is never surfaced to the consumer), and a read of the resulting
state delivers that same held buffer to the reader. -/
theorem repeat_on_starvation (e : Engine) (now : ℚ) (h : Held)
    (hf : fires e) (hheld : e.held = some h) (hres : e.result = .ok)
    (hrc : 1 ≤ h.refCount) :
    (productionCycle e now .wouldBlock).held = some h ∧
    1 ≤ h.refCount ∧
    (productionCycle e now .wouldBlock).result = .ok ∧
    read (productionCycle e now .wouldBlock) =
      some ({ productionCycle e now .wouldBlock with
                held := some { h with refCount := h.refCount + 1 } },
            .ok (h.buf, h.timestampUs)) := by
  obtain ⟨hrun, hsched⟩ := hf
  have he2 : productionCycle e now .wouldBlock =
      { e with frameCount := e.frameCount + 1 } := by
    unfold productionCycle
    rw [if_pos ⟨hrun, hsched⟩]
  rw [he2]
  refine ⟨hheld, hrc, hres, ?_⟩
  simp [read, hrun, hres, hheld]

/-- Witness for C2 at a concrete input: a rate-30 engine started and given
one fresh buffer at time 10 holds that buffer with one reference; a
starved cycle at time 999 keeps it, surfaces nothing, and the next read
delivers it. -/
theorem repeat_on_starvation_witness :
    fires (productionCycle ((start (Engine.init 30) true).fst) 10
            (.newBuffer ⟨7, [1, 2]⟩ 99)) ∧
    (productionCycle ((start (Engine.init 30) true).fst) 10
        (.newBuffer ⟨7, [1, 2]⟩ 99)).held =
      some ⟨⟨7, [1, 2]⟩, 1, deadline 10 0 30⟩ ∧
    ((productionCycle (productionCycle ((start (Engine.init 30) true).fst) 10
          (.newBuffer ⟨7, [1, 2]⟩ 99)) 999 .wouldBlock).held =
        some ⟨⟨7, [1, 2]⟩, 1, deadline 10 0 30⟩ ∧
      1 ≤ (⟨⟨7, [1, 2]⟩, 1, deadline 10 0 30⟩ : Held).refCount ∧
      (productionCycle (productionCycle ((start (Engine.init 30) true).fst) 10
          (.newBuffer ⟨7, [1, 2]⟩ 99)) 999 .wouldBlock).result = .ok ∧
      read (productionCycle (productionCycle ((start (Engine.init 30) true).fst) 10
          (.newBuffer ⟨7, [1, 2]⟩ 99)) 999 .wouldBlock) =
        some ({ productionCycle (productionCycle ((start (Engine.init 30) true).fst) 10
                  (.newBuffer ⟨7, [1, 2]⟩ 99)) 999 .wouldBlock with
                  held := some ⟨⟨7, [1, 2]⟩, 2, deadline 10 0 30⟩ },
              .ok (⟨7, [1, 2]⟩, deadline 10 0 30))) :=
  ⟨⟨rfl, rfl⟩, rfl,
    repeat_on_starvation _ 999 ⟨⟨7, [1, 2]⟩, 1, deadline 10 0 30⟩
      ⟨rfl, rfl⟩ rfl rfl (by decide)⟩

/-- C3: round-trip of production and read. After a successful start at any
rate, one production cycle in which the upstream yields a fresh buffer b
with an arbitrary source timestamp ts0, the next read returns exactly b,
and the timestamp it carries is the deadline of cycle 0 of that run: the
upstream timestamp ts0 is ignored entirely. -/
theorem start_produce_read_roundtrip (r now ts0 : ℚ) (b : Buffer) :
    ∃ e3,
      read (productionCycle ((start (Engine.init r) true).fst) now
              (.newBuffer b ts0)) =
        some (e3, .ok (b, deadline now 0 r)) :=
  ⟨_, rfl⟩

/-- C4: the frame counter advances by exactly one in every fired
production cycle, whether the cycle produced a fresh buffer, repeated the
held one on would-block, or hit a terminal error. -/
theorem frameCount_one_per_cycle (e : Engine) (now : ℚ) (up : UpRead)
    (hf : fires e) :
    (productionCycle e now up).frameCount = e.frameCount + 1 :=
  productionCycle_frameCount_of_fires e now up hf

/-- Witness for C4 at a concrete input: a freshly started rate-30 engine
fires a starved cycle and its frame counter goes from 0 to 1. -/
theorem frameCount_one_per_cycle_witness :
    fires ((start (Engine.init 30) true).fst) ∧
    (productionCycle ((start (Engine.init 30) true).fst) 5 .wouldBlock).frameCount =
      ((start (Engine.init 30) true).fst).frameCount + 1 :=
  ⟨⟨rfl, rfl⟩, frameCount_one_per_cycle _ 5 .wouldBlock ⟨rfl, rfl⟩⟩

/-- C5: start failure atomicity. When start is called on a Stopped engine
and the upstream producer start fails, start returns upstreamUnavailable
and the engine state is returned literally unchanged: it remains Stopped,
with no pacing state initialized and no production cycle armed. -/
theorem start_failure_atomic (e : Engine) (h : e.lifecycle = .Stopped) :
    start e false = (e, .upstreamUnavailable) := by
  unfold start
  rw [h]
  exact rfl

/-- Witness for C5 at a concrete input: a fresh rate-30 engine is Stopped,
and a failing start leaves it untouched with upstreamUnavailable. -/
theorem start_failure_atomic_witness :
    (Engine.init 30).lifecycle = .Stopped ∧
    start (Engine.init 30) false = (Engine.init 30, .upstreamUnavailable) :=
  ⟨rfl, start_failure_atomic (Engine.init 30) rfl⟩

/-- C6: terminal-error propagation. After a fired production cycle meets a
terminal upstream error, the next read returns the upstreamTerminal error
with the state unchanged, and every subsequent production cycle, at any
instant and with any upstream outcome, is a no-op: no further cycle ever
fires. -/
theorem terminal_propagation (e : Engine) (now now2 : ℚ) (up2 : UpRead)
    (hf : fires e) :
    read (productionCycle e now .terminal) =
      some (productionCycle e now .terminal, .error .upstreamTerminal) ∧
    productionCycle (productionCycle e now .terminal) now2 up2 =
      productionCycle e now .terminal := by
  obtain ⟨hrun, hsched⟩ := hf
  have he2 : productionCycle e now .terminal =
      { e with
          result := .upstreamTerminal
          scheduling := false
          frameCount := e.frameCount + 1 } := by
    unfold productionCycle
    rw [if_pos ⟨hrun, hsched⟩]
  rw [he2]
  constructor
  · simp [read, hrun]
  · apply productionCycle_not_fires
    simp [fires]

/-- Witness for C6 at a concrete input: a freshly started rate-30 engine
hit by a terminal error at time 7; the next read surfaces the error and a
later cycle at time 8 with a fresh buffer changes nothing. -/
theorem terminal_propagation_witness :
    fires ((start (Engine.init 30) true).fst) ∧
    (read (productionCycle ((start (Engine.init 30) true).fst) 7 .terminal) =
      some (productionCycle ((start (Engine.init 30) true).fst) 7 .terminal,
            .error .upstreamTerminal) ∧
    productionCycle (productionCycle ((start (Engine.init 30) true).fst) 7 .terminal)
        8 (.newBuffer ⟨1, []⟩ 0) =
      productionCycle ((start (Engine.init 30) true).fst) 7 .terminal) :=
  ⟨⟨rfl, rfl⟩, terminal_propagation _ 7 8 (.newBuffer ⟨1, []⟩ 0) ⟨rfl, rfl⟩⟩

/-- C7: read before start. On an engine whose lifecycle is Stopped, read
fails with invalidState and the state returned alongside the error is the
engine itself, literally unchanged: no held buffer, pacing state or
lifecycle mutation. -/
theorem read_before_start (e : Engine) (h : e.lifecycle = .Stopped) :
    read e = some (e, .error .invalidState) := by
  unfold read
  rw [h]

/-- Witness for C7 at a concrete input: a fresh rate-30 engine. -/
theorem read_before_start_witness :
    (Engine.init 30).lifecycle = .Stopped ∧
    read (Engine.init 30) = some (Engine.init 30, .error .invalidState) :=
  ⟨rfl, read_before_start (Engine.init 30) rfl⟩

/-- C8: stop unblocks a blocked read. If a read on the current state
blocks (no buffer available yet), then as soon as stop has flipped the
lifecycle to Stopping and broadcast the condition variable, the very next
wake of the reader, one scheduling quantum later, returns the Stopped
status instead of blocking: a blocked read never hangs across a stop. -/
theorem stop_unblocks_read (e : Engine) (h : read e = none) :
    read (stopBegin e) = some (stopBegin e, .error .stopped) := rfl

/-- Witness for C8 at a concrete input: a freshly started rate-30 engine
holds no buffer yet, so read blocks; after the Stopping flip the read
returns the Stopped status. -/
theorem stop_unblocks_read_witness :
    read ((start (Engine.init 30) true).fst) = none ∧
    read (stopBegin ((start (Engine.init 30) true).fst)) =
      some (stopBegin ((start (Engine.init 30) true).fst), .error .stopped) :=
  ⟨rfl, stop_unblocks_read _ rfl⟩

end Repeater

namespace AudioPolicy

/-- C9: set/get round-trip on the device address. For every
ProductStrategy object s and every string a, setDeviceAddress a followed
by getDeviceAddress returns exactly a. -/
theorem setDeviceAddress_getDeviceAddress_roundtrip
    (s : ProductStrategy) (a : String) :
    (s.setDeviceAddress a).getDeviceAddress = a := rfl

/-- C10: frame effect of setDeviceTypes. For every ProductStrategy object
s and device type set d, setDeviceTypes d makes getDeviceTypes return d,
while getName, getId, getDeviceAddress and getVolumeGroupAttributes are
unchanged. -/
theorem setDeviceTypes_frame (s : ProductStrategy) (d : DeviceTypeSet) :
    (s.setDeviceTypes d).getDeviceTypes = d ∧
    (s.setDeviceTypes d).getName = s.getName ∧
    (s.setDeviceTypes d).getId = s.getId ∧
    (s.setDeviceTypes d).getDeviceAddress = s.getDeviceAddress ∧
    (s.setDeviceTypes d).getVolumeGroupAttributes = s.getVolumeGroupAttributes :=
  ⟨rfl, rfl, rfl, rfl, rfl⟩

end AudioPolicy
